import Mathlib

/-!
Verification of the zombie-apocalypse PySB notebook
(`Zombie-Apocalypse-PySB.ipynb`) against its specification.

The notebook declares a reaction-rule model (three species, five rules)
and hands it to PySB, which expands the rules into a mass-action ODE
system.  The rule declarations below are transcribed from the notebook's
model-definition cell; the rule-to-ODE expansion itself lives in the PySB
library, not in this repository, so it is modelled from the
specification's algorithm (§4.2).
-/

namespace ZombieApocalypse

/-- Modelled from the spec: a reaction rule (§3 "Rule").  The PySB `Rule`
class is not part of this repository.  Stoichiometric multiplicities of the
`n` species are stored as functions `Fin n → ℕ`; `fwdRate` is the
forward-rate constant and `revRate`, when present, makes the rule
reversible. -/
structure Rxn (n : ℕ) where
  rname : String
  reactants : Fin n → ℕ
  products : Fin n → ℕ
  fwdRate : ℚ
  revRate : Option ℚ

/-- Stoichiometry of a list of species occurrences: each species' multiplicity
is the number of times it occurs in the list (the notebook writes rules as
sums of species occurrences, e.g. `Susceptible() + Zombie()`). -/
def stoich {n : ℕ} (l : List (Fin n)) : Fin n → ℕ :=
  fun i => l.count i

/-- Modelled from the spec: the instantaneous mass-action rate term of a rule
(§4.2 step 2): rate constant times the product of the involved species'
populations raised to their multiplicities. -/
def massActionTerm {n : ℕ} (rate : ℚ) (m : Fin n → ℕ) (y : Fin n → ℚ) : ℚ :=
  rate * ∏ i, y i ^ m i

/-- Modelled from the spec: the contribution of one rule to species `i`'s
derivative (§4.2 steps 2–4): `(products i − reactants i)` times the forward
rate term, plus, for a reversible rule, `(reactants i − products i)` times
the reverse rate term (the reverse direction treated as an independent rule,
§4.2 step 3). -/
def ruleDeriv {n : ℕ} (r : Rxn n) (y : Fin n → ℚ) (i : Fin n) : ℚ :=
  ((r.products i : ℚ) - (r.reactants i : ℚ)) * massActionTerm r.fwdRate r.reactants y +
    match r.revRate with
    | none => 0
    | some kr =>
        ((r.reactants i : ℚ) - (r.products i : ℚ)) * massActionTerm kr r.products y

/-- Modelled from the spec: the compiled ODE right-hand side (§4.2 steps 4–5):
each species' derivative is the sum of the contributions of all rules. -/
def odeRHS {n : ℕ} (rules : List (Rxn n)) (y : Fin n → ℚ) (i : Fin n) : ℚ :=
  (rules.map (fun r => ruleDeriv r y i)).sum

/-- Modelled from the spec: a validated Model (§3) — species names and
initial values in canonical declaration order, plus the rule set. -/
structure CModel (n : ℕ) where
  speciesNames : Fin n → String
  initialValue : Fin n → ℚ
  rules : List (Rxn n)

/-- Modelled from the spec: the rule-to-ODE compiler (§4.2) — produces the
derivative function from the Model's rule set alone. -/
def compile {n : ℕ} (m : CModel n) : (Fin n → ℚ) → Fin n → ℚ :=
  odeRHS m.rules

/-! ### The notebook's model

Species, in the notebook's `Monomer` declaration order:
`Susceptible`, `Zombie`, `Removed`. -/

def Susceptible : Fin 3 := 0
def Zombie : Fin 3 := 1
def Removed : Fin 3 := 2

/-- Default rate-parameter values from the notebook's `Parameter` lines. -/
def k_birth : ℚ := 0
def k_death : ℚ := 0.0001
def k_infect : ℚ := 0.0095
def k_resurrect : ℚ := 0.0001
def k_destroy : ℚ := 0.0001

/-- Rule `r_birth`: `None >> Susceptible()` at rate `k_birth`. -/
def r_birth (kb : ℚ) : Rxn 3 :=
  ⟨"r_birth", stoich [], stoich [Susceptible], kb, none⟩

/-- Rule `r_death`: `Susceptible() >> Removed()` at rate `k_death`. -/
def r_death (kd : ℚ) : Rxn 3 :=
  ⟨"r_death", stoich [Susceptible], stoich [Removed], kd, none⟩

/-- Rule `r_infected`: `Susceptible() + Zombie() >> Zombie() + Zombie()`
at rate `k_infect`. -/
def r_infected (ki : ℚ) : Rxn 3 :=
  ⟨"r_infected", stoich [Susceptible, Zombie], stoich [Zombie, Zombie], ki, none⟩

/-- Rule `r_destroy`: `Susceptible() + Zombie() >> Susceptible() + Removed()`
at rate `k_destroy`. -/
def r_destroy (ka : ℚ) : Rxn 3 :=
  ⟨"r_destroy", stoich [Susceptible, Zombie], stoich [Susceptible, Removed], ka, none⟩

/-- Rule `r_resurrect`: `Removed() >> Zombie()` at rate `k_resurrect`. -/
def r_resurrect (kr : ℚ) : Rxn 3 :=
  ⟨"r_resurrect", stoich [Removed], stoich [Zombie], kr, none⟩

/-- The notebook's five reaction rules, in declaration order, with the rate
constants left symbolic. -/
def zombieRules (kb kd ki ka kr : ℚ) : List (Rxn 3) :=
  [r_birth kb, r_death kd, r_infected ki, r_destroy ka, r_resurrect kr]

/-- The notebook's model: species in `Monomer` declaration order, initial
values from the `Initial` lines (`S_0 = 500`, `Z_0 = 0`, `R_0 = 0`), and the
five rules with their default rate values. -/
def zombieModel : CModel 3 where
  speciesNames := fun i => ["Susceptible", "Zombie", "Removed"].getD i ""
  initialValue := fun i => [(500 : ℚ), 0, 0].getD i 0
  rules := zombieRules k_birth k_death k_infect k_destroy k_resurrect

/-- Column indices of the trajectory read by the notebook's plotting cell
(`soln.species[:, 0]` labelled "Living" and `soln.species[:, 1]` labelled
"Zombies"). -/
def plotColumns : List ℕ := [0, 1]

/-- Closed form of the compiled derivative of `Susceptible`. -/
theorem odeRHS_susceptible (kb kd ki ka kr : ℚ) (y : Fin 3 → ℚ) :
    odeRHS (zombieRules kb kd ki ka kr) y Susceptible =
      kb - kd * y Susceptible - ki * (y Susceptible * y Zombie) := by
  simp [odeRHS, zombieRules, ruleDeriv, massActionTerm, r_birth, r_death,
    r_infected, r_destroy, r_resurrect, stoich, Susceptible, Zombie, Removed,
    Fin.prod_univ_three, List.count_cons, List.count_nil]
  ring

/-- Closed form of the compiled derivative of `Zombie`. -/
theorem odeRHS_zombie (kb kd ki ka kr : ℚ) (y : Fin 3 → ℚ) :
    odeRHS (zombieRules kb kd ki ka kr) y Zombie =
      ki * (y Susceptible * y Zombie) - ka * (y Susceptible * y Zombie) +
        kr * y Removed := by
  simp [odeRHS, zombieRules, ruleDeriv, massActionTerm, r_birth, r_death,
    r_infected, r_destroy, r_resurrect, stoich, Susceptible, Zombie, Removed,
    Fin.prod_univ_three, List.count_cons, List.count_nil]
  ring

/-- Closed form of the compiled derivative of `Removed`. -/
theorem odeRHS_removed (kb kd ki ka kr : ℚ) (y : Fin 3 → ℚ) :
    odeRHS (zombieRules kb kd ki ka kr) y Removed =
      kd * y Susceptible + ka * (y Susceptible * y Zombie) - kr * y Removed := by
  simp [odeRHS, zombieRules, ruleDeriv, massActionTerm, r_birth, r_death,
    r_infected, r_destroy, r_resurrect, stoich, Susceptible, Zombie, Removed,
    Fin.prod_univ_three, List.count_cons, List.count_nil]
  ring

/-- C1: for the infection rule `r_infected` (reactants Susceptible and Zombie
each with multiplicity 1, products Zombie with multiplicity 2, rate
`k_infect`), at every state the rule's contribution to Susceptible is exactly
`-k_infect*S*Z` and its contribution to Zombie is exactly `+k_infect*S*Z` —
the standard mass-action term. -/
theorem infected_mass_action (ki : ℚ) (y : Fin 3 → ℚ) :
    ruleDeriv (r_infected ki) y Susceptible =
        -(ki * (y Susceptible * y Zombie)) ∧
      ruleDeriv (r_infected ki) y Zombie = ki * (y Susceptible * y Zombie) := by
  constructor <;>
    · simp [ruleDeriv, massActionTerm, r_infected, stoich, Susceptible, Zombie,
        Removed, Fin.prod_univ_three, List.count_cons, List.count_nil]
      try ring

/-- C2: with the notebook's default model (species order
[Susceptible, Zombie, Removed], initial state [500, 0, 0], default rates),
the compiled derivative at the initial state is exactly
`[-0.0001*500, 0, 0.0001*500] = [-0.05, 0, 0.05]`. -/
theorem default_initial_derivative :
    compile zombieModel zombieModel.initialValue Susceptible = -(0.0001 * 500) ∧
      compile zombieModel zombieModel.initialValue Zombie = 0 ∧
      compile zombieModel zombieModel.initialValue Removed = 0.0001 * 500 ∧
      (-(0.0001 * 500) : ℚ) = -0.05 ∧ ((0.0001 * 500 : ℚ)) = 0.05 := by
  have hS : zombieModel.initialValue Susceptible = 500 := rfl
  have hZ : zombieModel.initialValue Zombie = 0 := rfl
  have hR : zombieModel.initialValue Removed = 0 := rfl
  refine ⟨?_, ?_, ?_, by norm_num, by norm_num⟩
  · show odeRHS (zombieRules k_birth k_death k_infect k_destroy k_resurrect)
      zombieModel.initialValue Susceptible = _
    rw [odeRHS_susceptible, hS, hZ]
    norm_num [k_birth, k_death, k_infect]
  · show odeRHS (zombieRules k_birth k_death k_infect k_destroy k_resurrect)
      zombieModel.initialValue Zombie = _
    rw [odeRHS_zombie, hS, hZ, hR]
    norm_num
  · show odeRHS (zombieRules k_birth k_death k_infect k_destroy k_resurrect)
      zombieModel.initialValue Removed = _
    rw [odeRHS_removed, hS, hZ, hR]
    norm_num [k_death, k_destroy, k_resurrect]

/-- C3: each of the four population-converting rules (`r_death`, `r_infected`,
`r_destroy`, `r_resurrect`) contributes zero to the sum of the three
derivative components at every state, and consequently the sum of the
compiled derivative vector's components equals `k_birth` at every state. -/
theorem total_population_conservation (kb kd ki ka kr : ℚ) (y : Fin 3 → ℚ) :
    (∑ i, ruleDeriv (r_death kd) y i) = 0 ∧
      (∑ i, ruleDeriv (r_infected ki) y i) = 0 ∧
      (∑ i, ruleDeriv (r_destroy ka) y i) = 0 ∧
      (∑ i, ruleDeriv (r_resurrect kr) y i) = 0 ∧
      (∑ i, odeRHS (zombieRules kb kd ki ka kr) y i) = kb := by
  refine ⟨?_, ?_, ?_, ?_, ?_⟩
  · simp [Fin.sum_univ_three, ruleDeriv, massActionTerm, r_death, stoich,
      Susceptible, Zombie, Removed, Fin.prod_univ_three, List.count_cons,
      List.count_nil]
    try ring
  · simp [Fin.sum_univ_three, ruleDeriv, massActionTerm, r_infected, stoich,
      Susceptible, Zombie, Removed, Fin.prod_univ_three, List.count_cons,
      List.count_nil]
    try ring
  · simp [Fin.sum_univ_three, ruleDeriv, massActionTerm, r_destroy, stoich,
      Susceptible, Zombie, Removed, Fin.prod_univ_three, List.count_cons,
      List.count_nil]
    try ring
  · simp [Fin.sum_univ_three, ruleDeriv, massActionTerm, r_resurrect, stoich,
      Susceptible, Zombie, Removed, Fin.prod_univ_three, List.count_cons,
      List.count_nil]
    try ring
  · rw [show ((∑ i, odeRHS (zombieRules kb kd ki ka kr) y i) =
        odeRHS (zombieRules kb kd ki ka kr) y 0 +
          odeRHS (zombieRules kb kd ki ka kr) y 1 +
          odeRHS (zombieRules kb kd ki ka kr) y 2) from Fin.sum_univ_three _]
    rw [show ((0 : Fin 3) = Susceptible) from rfl,
      show ((1 : Fin 3) = Zombie) from rfl, show ((2 : Fin 3) = Removed) from rfl,
      odeRHS_susceptible, odeRHS_zombie, odeRHS_removed]
    ring

/-- C4: a species with equal reactant and product multiplicity in a rule gets
zero net contribution from that rule; concretely, `r_destroy`
(Susceptible + Zombie → Susceptible + Removed) contributes 0 to Susceptible,
`-k_destroy*S*Z` to Zombie and `+k_destroy*S*Z` to Removed. -/
theorem catalytic_zero_contribution :
    (∀ (n : ℕ) (r : Rxn n) (y : Fin n → ℚ) (i : Fin n),
        r.reactants i = r.products i → ruleDeriv r y i = 0) ∧
      ∀ (ka : ℚ) (y : Fin 3 → ℚ),
        ruleDeriv (r_destroy ka) y Susceptible = 0 ∧
          ruleDeriv (r_destroy ka) y Zombie =
            -(ka * (y Susceptible * y Zombie)) ∧
          ruleDeriv (r_destroy ka) y Removed =
            ka * (y Susceptible * y Zombie) := by
  constructor
  · intro n r y i h
    unfold ruleDeriv
    rw [h]
    cases r.revRate <;> simp
  · intro ka y
    refine ⟨?_, ?_, ?_⟩ <;>
    · simp [ruleDeriv, massActionTerm, r_destroy, stoich, Susceptible, Zombie,
        Removed, Fin.prod_univ_three, List.count_cons, List.count_nil]
      try ring

/-- Witness for C4: applying the catalytic-species lemma to `r_destroy` at the
all-ones state, where Susceptible has multiplicity 1 on both sides. -/
theorem catalytic_zero_contribution_witness :
    ruleDeriv (r_destroy (1 : ℚ)) (fun _ => 1) Susceptible = 0 :=
  catalytic_zero_contribution.1 3 (r_destroy 1) (fun _ => 1) Susceptible (by decide)

/-- C5: the canonical species ordering is the `Monomer` declaration order —
index 0 is Susceptible, index 1 is Zombie, index 2 is Removed — and the
plotting cell reads exactly trajectory columns 0 (Susceptible, labelled
"Living") and 1 (Zombie, labelled "Zombies") of that same ordering. -/
theorem species_declaration_order :
    zombieModel.speciesNames 0 = "Susceptible" ∧
      zombieModel.speciesNames 1 = "Zombie" ∧
      zombieModel.speciesNames 2 = "Removed" ∧
      Susceptible = (0 : Fin 3) ∧ Zombie = (1 : Fin 3) ∧ Removed = (2 : Fin 3) ∧
      plotColumns = [Susceptible.val, Zombie.val] ∧
      plotColumns.all (· < 3) = true :=
  ⟨rfl, rfl, rfl, rfl, rfl, rfl, rfl, rfl⟩

/-- Generic one-way rule `a → b` with unit stoichiometry. -/
def oneWay {n : ℕ} (a b : Fin n) (k : ℚ) : Rxn n :=
  ⟨"oneWay", stoich [a], stoich [b], k, none⟩

/-- Generic reversible rule `a ⇌ b` with unit stoichiometry, forward rate
`kf` and reverse rate `kr`. -/
def twoWay {n : ℕ} (a b : Fin n) (kf kr : ℚ) : Rxn n :=
  ⟨"twoWay", stoich [a], stoich [b], kf, some kr⟩

/-- C6: for every pair of species `a`, `b` and rates `kf`, `kr`, the single
reversible rule `a ⇌ b` compiles to the same derivative function as the two
one-way rules `a → b` (rate `kf`) and `b → a` (rate `kr`) declared
together. -/
theorem reversible_rule_equivalence (n : ℕ) (a b : Fin n) (kf kr : ℚ)
    (y : Fin n → ℚ) (i : Fin n) :
    odeRHS [twoWay a b kf kr] y i = odeRHS [oneWay a b kf, oneWay b a kr] y i := by
  simp [odeRHS, ruleDeriv, massActionTerm, oneWay, twoWay]
  try ring

/-- C7: compilation is a pure function of the Model's rule set — two Models
with the same rules (whatever their other fields) compile to derivative
functions that agree on every state input. -/
theorem compile_deterministic (n : ℕ) (m₁ m₂ : CModel n)
    (h : m₁.rules = m₂.rules) (y : Fin n → ℚ) (i : Fin n) :
    compile m₁ y i = compile m₂ y i := by
  unfold compile
  rw [h]

/-- The notebook's model with the bookkeeping fields (names, initial values)
replaced, but the same rule set — used to witness determinism. -/
def zombieModelRelabeled : CModel 3 where
  speciesNames := fun _ => "species"
  initialValue := fun _ => 0
  rules := zombieRules k_birth k_death k_infect k_destroy k_resurrect

/-- Witness for C7: the notebook model and its relabeled copy share a rule
set, so their compiled derivatives agree at the all-ones state. -/
theorem compile_deterministic_witness :
    compile zombieModel (fun _ => 1) Susceptible =
      compile zombieModelRelabeled (fun _ => 1) Susceptible :=
  compile_deterministic 3 zombieModel zombieModelRelabeled rfl (fun _ => 1) Susceptible

/-- Modelled from the spec: the definition-time error taxonomy (§7).  PySB's
declaration machinery is not part of this repository. -/
inductive DeclError
  | duplicateName
  | invalidValue
  | unboundSpecies
  | unknownParameter
  | incompleteModel
deriving DecidableEq

/-- Modelled from the spec: a Model under construction (§4.1) — the declared
species names, parameters and rules. -/
structure BuilderModel where
  speciesSet : List String
  paramSet : List (String × ℚ)
  ruleSet : List (String × (List String × List String × String))

/-- Modelled from the spec: `add_rule` (§4.1) — fails with `DuplicateNameError`
on a rule-name collision, with `UnboundSpeciesError` if any referenced species
is undeclared, and with `UnknownParameterError` if the rate parameter is
undeclared; only on success does it return an extended Model. -/
def add_rule (m : BuilderModel) (rn : String) (reactants products : List String)
    (fwd : String) : Except DeclError BuilderModel :=
  if (m.ruleSet.map Prod.fst).contains rn then .error .duplicateName
  else if ((reactants ++ products).all fun s => m.speciesSet.contains s) = false then
    .error .unboundSpecies
  else if ((m.paramSet.map Prod.fst).contains fwd) = false then
    .error .unknownParameter
  else .ok { m with ruleSet := m.ruleSet ++ [(rn, (reactants, products, fwd))] }

/-- Modelled from the spec: the Model in effect after a declaration attempt —
a failed declaration leaves the previous Model in place (atomic declaration
semantics, §7). -/
def modelAfter (m : BuilderModel) (res : Except DeclError BuilderModel) :
    BuilderModel :=
  match res with
  | .ok m' => m'
  | .error _ => m

/-- C8: declaring a rule that references an undeclared species fails
synchronously at the declaration call with `UnboundSpeciesError`, and the
Model's species set and rule set are unchanged afterwards. -/
theorem add_rule_undeclared_species_atomic (m : BuilderModel) (rn : String)
    (reactants products : List String) (fwd : String)
    (hname : (m.ruleSet.map Prod.fst).contains rn = false)
    (hspec : ((reactants ++ products).all fun s => m.speciesSet.contains s) = false) :
    add_rule m rn reactants products fwd = .error .unboundSpecies ∧
      (modelAfter m (add_rule m rn reactants products fwd)).speciesSet =
        m.speciesSet ∧
      (modelAfter m (add_rule m rn reactants products fwd)).ruleSet = m.ruleSet := by
  have h : add_rule m rn reactants products fwd = .error .unboundSpecies := by
    unfold add_rule
    rw [hname, hspec]
    simp
  exact ⟨h, by rw [h]; rfl, by rw [h]; rfl⟩

/-- Witness for C8: adding a rule over the undeclared species "Ghost" to a
one-species model fails and leaves the model untouched. -/
theorem add_rule_undeclared_species_atomic_witness :
    add_rule ⟨["Susceptible"], [("k_infect", 0.0095)], []⟩ "r_ghost" ["Ghost"] []
        "k_infect" = .error .unboundSpecies ∧
      (modelAfter ⟨["Susceptible"], [("k_infect", 0.0095)], []⟩
          (add_rule ⟨["Susceptible"], [("k_infect", 0.0095)], []⟩ "r_ghost"
            ["Ghost"] [] "k_infect")).speciesSet = ["Susceptible"] ∧
      (modelAfter ⟨["Susceptible"], [("k_infect", 0.0095)], []⟩
          (add_rule ⟨["Susceptible"], [("k_infect", 0.0095)], []⟩ "r_ghost"
            ["Ghost"] [] "k_infect")).ruleSet = [] :=
  add_rule_undeclared_species_atomic ⟨["Susceptible"], [("k_infect", 0.0095)], []⟩
    "r_ghost" ["Ghost"] [] "k_infect" rfl (by decide)

/-- C9: on the nonnegative orthant with nonnegative rates, every species at
population 0 has a nonnegative derivative — `dS` at `S=0` equals `k_birth`,
`dZ` at `Z=0` equals `k_resurrect*R`, `dR` at `R=0` equals
`k_death*S + k_destroy*S*Z` — so the compiled vector field never points out
of the nonnegative orthant. -/
theorem boundary_derivative_nonneg (kb kd ki ka kr : ℚ) (y : Fin 3 → ℚ)
    (hkb : 0 ≤ kb) (hkd : 0 ≤ kd) (_hki : 0 ≤ ki) (hka : 0 ≤ ka) (hkr : 0 ≤ kr)
    (hy : ∀ i, 0 ≤ y i) :
    (y Susceptible = 0 →
        odeRHS (zombieRules kb kd ki ka kr) y Susceptible = kb ∧
          0 ≤ odeRHS (zombieRules kb kd ki ka kr) y Susceptible) ∧
      (y Zombie = 0 →
        odeRHS (zombieRules kb kd ki ka kr) y Zombie = kr * y Removed ∧
          0 ≤ odeRHS (zombieRules kb kd ki ka kr) y Zombie) ∧
      (y Removed = 0 →
        odeRHS (zombieRules kb kd ki ka kr) y Removed =
            kd * y Susceptible + ka * (y Susceptible * y Zombie) ∧
          0 ≤ odeRHS (zombieRules kb kd ki ka kr) y Removed) := by
  refine ⟨fun h => ?_, fun h => ?_, fun h => ?_⟩
  · rw [odeRHS_susceptible, h]
    constructor
    · ring
    · simp only [mul_zero, zero_mul, sub_zero]
      exact hkb
  · rw [odeRHS_zombie, h]
    constructor
    · ring
    · simp only [mul_zero, zero_mul, sub_zero, zero_add, sub_self, zero_sub,
        neg_zero]
      exact mul_nonneg hkr (hy Removed)
  · rw [odeRHS_removed, h]
    constructor
    · ring
    · simp only [mul_zero, sub_zero]
      exact add_nonneg (mul_nonneg hkd (hy Susceptible))
        (mul_nonneg hka (mul_nonneg (hy Susceptible) (hy Zombie)))

/-- Witness for C9: with all rates 1 and the zero state, the Susceptible
derivative at `S = 0` equals the birth rate. -/
theorem boundary_derivative_nonneg_witness :
    odeRHS (zombieRules 1 1 1 1 1) (fun _ => 0) Susceptible = 1 ∧
      0 ≤ odeRHS (zombieRules 1 1 1 1 1) (fun _ => 0) Susceptible :=
  (boundary_derivative_nonneg 1 1 1 1 1 (fun _ => 0) zero_le_one zero_le_one
      zero_le_one zero_le_one zero_le_one (fun _ => le_refl 0)).1 rfl

/-- C10: under the notebook's default rates (`k_infect = 0.0095 ≥ k_destroy =
0.0001`, `k_resurrect = 0.0001 ≥ 0`), at every nonnegative state the Zombie
derivative equals `(k_infect − k_destroy)*S*Z + k_resurrect*R` and is
nonnegative: the compiled vector field never decreases the zombie
population. -/
theorem zombie_derivative_nonneg (y : Fin 3 → ℚ) (hy : ∀ i, 0 ≤ y i) :
    odeRHS (zombieRules k_birth k_death k_infect k_destroy k_resurrect) y Zombie =
        (k_infect - k_destroy) * (y Susceptible * y Zombie) +
          k_resurrect * y Removed ∧
      0 ≤ odeRHS (zombieRules k_birth k_death k_infect k_destroy k_resurrect) y
          Zombie := by
  have h := odeRHS_zombie k_birth k_death k_infect k_destroy k_resurrect y
  have hSZ : 0 ≤ y Susceptible * y Zombie :=
    mul_nonneg (hy Susceptible) (hy Zombie)
  have hR : 0 ≤ y Removed := hy Removed
  constructor
  · rw [h]
    ring
  · rw [h]
    have hki : (k_destroy : ℚ) ≤ k_infect := by norm_num [k_infect, k_destroy]
    have hkr : (0 : ℚ) ≤ k_resurrect := by norm_num [k_resurrect]
    nlinarith [mul_nonneg (sub_nonneg.mpr hki) hSZ, mul_nonneg hkr hR]

/-- Witness for C10: at the all-zero state the Zombie derivative is
nonnegative. -/
theorem zombie_derivative_nonneg_witness :
    0 ≤ odeRHS (zombieRules k_birth k_death k_infect k_destroy k_resurrect)
        (fun _ => 0) Zombie :=
  (zombie_derivative_nonneg (fun _ => 0) (fun _ => le_refl 0)).2

end ZombieApocalypse
